import Mathlib

/-!
Shallow embedding of the submission-aggregation logic of the academic-records
backend (class-teacher router `classTeacherRoutes.js` and the faculty / export
router) together with the delete-student and bulk-import handlers.

Datastore rows are embedded as Lean structures; the row sets a request fetches
are lists; the per-request computation of each handler is a pure function of
those lists.  Each handler is translated statement by statement from the
JavaScript source: `Array.prototype.find` becomes `List.find?`,
`Array.prototype.filter` becomes `List.filter`, a `Map` built by successive
`set` calls is looked up as the last list entry with the given key, the JS
`x?.status || 'pending'` idiom becomes `statusOrPending`, and the JS truthiness
test `if (sel.mdm_id)` on a nullable numeric id (null and 0 are falsy) becomes
`truthyId`.  `Math.round ((c / t) * 100)` on natural counts is embedded as
exact half-up rounding `(200 * c + t) / (2 * t)` in natural-number arithmetic.
-/

namespace Rivoo

/-- Row of the `submission_types` table (`id`, `name`). -/
structure SubmissionType where
  id : Nat
  name : String
deriving DecidableEq, Repr

/-- Row of the `student_submissions` table. -/
structure Submission where
  student_id : Nat
  subject_id : Nat
  submission_type_id : Nat
  status : String
deriving DecidableEq, Repr

/-- Row of the `subjects` table.  `class_id` is nullable (elective subjects
offered at department level carry no class). -/
structure Subject where
  id : Nat
  name : String
  subject_code : String
  type : String
  class_id : Option Nat
deriving DecidableEq, Repr

/-- Row of the `students` table (the columns the aggregation reads). -/
structure Student where
  id : Nat
  roll_no : String
  name : String
  defaulter : Bool
  class_id : Nat
  batch_id : Option Nat
deriving DecidableEq, Repr

/-- Row of the `student_subject_selection` table: per-student elective slots
(MDM / OE / PE), each with an assigned grading faculty.  All six references are
nullable. -/
structure Selection where
  student_id : Nat
  mdm_id : Option Nat
  oe_id : Option Nat
  pe_id : Option Nat
  mdm_faculty_id : Option Nat
  oe_faculty_id : Option Nat
  pe_faculty_id : Option Nat
deriving DecidableEq, Repr

/-- Row of the `faculty_subjects` table.  `subject_id`, `batch_id` and
`class_id` are nullable (a batch-link row created by `/create-batch` has no
subject). -/
structure FacultyAssignment where
  faculty_id : Nat
  subject_id : Option Nat
  batch_id : Option Nat
  class_id : Option Nat
deriving DecidableEq, Repr

/-- The datastore snapshot a request reads. -/
structure DB where
  students : List Student
  subjects : List Subject
  selections : List Selection
  submissions : List Submission
  submissionTypes : List SubmissionType
  facultySubjects : List FacultyAssignment
deriving Repr

/-- JS truthiness of a nullable numeric id: `null`/`undefined` and `0` are
falsy, every other number is truthy. -/
def truthyId : Option Nat → Bool
  | none => false
  | some v => v != 0

/-- `if (sel.mdm_id) arr.push(sel.mdm_id); ...` — the elective subject ids a
selection row contributes, in slot order MDM, OE, PE. -/
def selectionElectives (sel : Selection) : List Nat :=
  (if truthyId sel.mdm_id then sel.mdm_id.toList else []) ++
    (if truthyId sel.oe_id then sel.oe_id.toList else []) ++
      (if truthyId sel.pe_id then sel.pe_id.toList else [])

/-- `submissionTypes.find(t => t.name === n)`. -/
def findType (types : List SubmissionType) (n : String) : Option SubmissionType :=
  types.find? (fun t => t.name == n)

/-- `sub.submission_type_id === ty?.id`: when the named submission type is
absent (`ty` is `none`), `ty?.id` is `undefined` and the strict comparison
with a numeric column is always false. -/
def matchesType (ty : Option SubmissionType) (r : Submission) : Bool :=
  match ty with
  | some t => r.submission_type_id == t.id
  | none => false

/-- `subs.find(sub => sub.submission_type_id === ty?.id)`. -/
def findSubmission (subs : List Submission) (ty : Option SubmissionType) :
    Option Submission :=
  subs.find? (matchesType ty)

/-- `(s && s.status === 'completed' ? 1 : 0)` applied to the looked-up record. -/
def completedCount (subs : List Submission) (ty : Option SubmissionType) : Nat :=
  match findSubmission subs ty with
  | some r => if r.status == "completed" then 1 else 0
  | none => 0

/-- `x?.status || 'pending'`: `'pending'` when no record was found or the
found record's status is the empty string (falsy), else the raw status. -/
def statusOrPending : Option Submission → String
  | none => "pending"
  | some r => if r.status == "" then "pending" else r.status

/-- Per-subject `(subjectTotal, subjectCompleted)` of the class-teacher
`GET /students` handler: practical subjects count one TA item; any other
subject counts TA and CIE, plus Defaulter work when the student is a
defaulter. -/
def subjectTotalCompleted (types : List SubmissionType) (isDefaulter : Bool)
    (subjType : String) (subjectSubmissions : List Submission) : Nat × Nat :=
  if subjType == "practical" then
    (1, completedCount subjectSubmissions (findType types "TA"))
  else
    let c := completedCount subjectSubmissions (findType types "TA") +
      completedCount subjectSubmissions (findType types "CIE")
    if isDefaulter then
      (3, c + completedCount subjectSubmissions (findType types "Defaulter work"))
    else
      (2, c)

/-- `Math.round((c / t) * 100)` for natural counts `c`, `t` with `t > 0`:
half-up rounding, `floor (100 * c / t + 1 / 2) = (200 * c + t) / (2 * t)`. -/
def pctRound (c t : Nat) : Nat := (200 * c + t) / (2 * t)

/-- `.from('students').eq('class_id', classId)` — the caller's roster. -/
def classStudents (db : DB) (cid : Nat) : List Student :=
  db.students.filter (fun s => s.class_id == cid)

/-- `.from('subjects').eq('class_id', classId)` — the class's core subjects. -/
def classSubjects (db : DB) (cid : Nat) : List Subject :=
  db.subjects.filter (fun s => s.class_id == some cid)

/-- `.from('student_subject_selection').in('student_id', studentIds)`. -/
def classSelections (db : DB) (cid : Nat) : List Selection :=
  db.selections.filter
    (fun sel => ((classStudents db cid).map (·.id)).contains sel.student_id)

/-- The elective subject ids collected over all fetched selection rows (the JS
code puts them in a `Set`; only membership is ever used). -/
def collectElectiveIds (sels : List Selection) : List Nat :=
  sels.flatMap selectionElectives

/-- `.from('subjects').in('id', electiveSubjectIds)`, fetched only when the id
set is non-empty. -/
def electiveSubjects (db : DB) (cid : Nat) : List Subject :=
  let ids := collectElectiveIds (classSelections db cid)
  if ids.isEmpty then [] else db.subjects.filter (fun s => ids.contains s.id)

/-- `studentElectiveMap.get(s.id) || []`: the map is built by iterating the
selection rows with `set`, so the last row for a student wins. -/
def studentElectivesOf (sels : List Selection) (sid : Nat) : List Nat :=
  match sels.reverse.find? (fun sel => sel.student_id == sid) with
  | some sel => selectionElectives sel
  | none => []

/-- `studentSubjects = [...classSubjects, ...electiveSubjects.filter(es =>
studentElectives.includes(es.id))]`. -/
def studentSubjectsOf (db : DB) (cid : Nat) (st : Student) : List Subject :=
  classSubjects db cid ++
    (electiveSubjects db cid).filter
      (fun es => (studentElectivesOf (classSelections db cid) st.id).contains es.id)

/-- `.from('student_submissions').in('student_id', studentIds)`. -/
def classSubmissions (db : DB) (cid : Nat) : List Submission :=
  db.submissions.filter
    (fun r => ((classStudents db cid).map (·.id)).contains r.student_id)

/-- The `(totalSubmissions, completedSubmissions)` accumulation of the
class-teacher `GET /students` handler for one student. -/
def studentTotals (db : DB) (cid : Nat) (st : Student) : Nat × Nat :=
  let studentSubmissions :=
    (classSubmissions db cid).filter (fun r => r.student_id == st.id)
  (studentSubjectsOf db cid st).foldl
    (fun acc subject =>
      let subjectSubmissions :=
        studentSubmissions.filter (fun r => r.subject_id == subject.id)
      let tc := subjectTotalCompleted db.submissionTypes st.defaulter
        subject.type subjectSubmissions
      (acc.1 + tc.1, acc.2 + tc.2))
    (0, 0)

/-- The `submission_percentage` the class-teacher `GET /students` handler
attaches to one student: `0` on the early return for a student with no
applicable subjects, else `total > 0 ? Math.round(...) : 0`. -/
def studentPercentage (db : DB) (cid : Nat) (st : Student) : Nat :=
  if (studentSubjectsOf db cid st).isEmpty then 0
  else
    let tc := studentTotals db cid st
    if tc.1 > 0 then pctRound tc.2 tc.1 else 0

/-- One roster entry of the class-teacher `GET /students` response. -/
structure StudentOut where
  student : Student
  submission_percentage : Nat
deriving DecidableEq, Repr

/-- The class-teacher `GET /students` response body (response order is the
datastore order; ordering is irrelevant to every property below). -/
def classTeacherStudents (db : DB) (cid : Nat) : List StudentOut :=
  (classStudents db cid).map (fun s => ⟨s, studentPercentage db cid s⟩)

/-- One per-subject entry of the `GET /class-data` export (`subjectSubmissions`
object in the source; the object is keyed by subject id, modelled here as the
entry list in subject order). -/
structure SubjRow where
  subject_id : Nat
  subject_name : String
  subject_code : String
  subject_type : String
  cie : String
  ta : String
  defaulterWork : String
deriving DecidableEq, Repr

/-- The `GET /class-data` per-(student, subject) entry: CIE is the fixed
string `N/A` for a practical subject, the defaulter item is the fixed string
`-` unless the student is a defaulter and the subject is not practical, and
otherwise each field is the looked-up record's raw status or `pending`. -/
def exportSubjectRow (types : List SubmissionType) (student : Student)
    (subs : List Submission) (subject : Subject) : SubjRow :=
  let ss := subs.filter
    (fun r => r.student_id == student.id && r.subject_id == subject.id)
  let taSubmission := findSubmission ss (findType types "TA")
  let cieSubmission := findSubmission ss (findType types "CIE")
  let defaulterSubmission := findSubmission ss (findType types "Defaulter work")
  { subject_id := subject.id
    subject_name := subject.name
    subject_code := subject.subject_code
    subject_type := subject.type
    cie := if subject.type == "practical" then "N/A"
      else statusOrPending cieSubmission
    ta := statusOrPending taSubmission
    defaulterWork :=
      if student.defaulter && subject.type != "practical" then
        statusOrPending defaulterSubmission
      else "-" }

/-- One student of the `GET /class-data` export. -/
structure ExportStudent where
  roll_no : String
  name : String
  defaulter : Bool
  submissions : List SubjRow
deriving DecidableEq, Repr

/-- The `students` array of the `GET /class-data` export: each class student
with one submission entry per applicable subject (core subjects plus the
student's selected electives). -/
def classDataStudents (db : DB) (cid : Nat) : List ExportStudent :=
  (classStudents db cid).map (fun student =>
    { roll_no := student.roll_no
      name := student.name
      defaulter := student.defaulter
      submissions := (studentSubjectsOf db cid student).map
        (exportSubjectRow db.submissionTypes student (classSubmissions db cid)) })

/-- One `(student, subject)` row of the faculty `GET /students` response,
before the percentage pass. -/
structure FacultyRow where
  student : Student
  subject_id : Nat
  subject_name : String
  subject_code : String
  subject_type : String
  ta_status : String
  cie_status : String
  defaulter_status : String
deriving DecidableEq, Repr

/-- The `subjects ( ... )` join of a `faculty_subjects` row: the subject row
referenced by `subject_id`, when any. -/
def assignmentSubject (db : DB) (a : FacultyAssignment) : Option Subject :=
  a.subject_id.bind (fun sid => db.subjects.find? (fun s => s.id == sid))

/-- `.from('faculty_subjects').eq('faculty_id', facultyId)`. -/
def facultyAssignments (db : DB) (fid : Nat) : List FacultyAssignment :=
  db.facultySubjects.filter (fun a => a.faculty_id == fid)

/-- `[...new Set(assignments.map(a => a.class_id).filter(Boolean))]` — class
ids of the faculty's assignments (nulls dropped by JS truthiness). -/
def facultyClassIds (db : DB) (fid : Nat) : List Nat :=
  (facultyAssignments db fid).filterMap
    (fun a => if truthyId a.class_id then a.class_id else none)

/-- `.from('students').in('class_id', classIds)` — all students of the classes
where the faculty teaches. -/
def facultyAllStudents (db : DB) (fid : Nat) : List Student :=
  db.students.filter (fun s => (facultyClassIds db fid).contains s.class_id)

/-- `.from('student_submissions').in('student_id', allStudentIds)`. -/
def facultySubmissions (db : DB) (fid : Nat) : List Submission :=
  db.submissions.filter
    (fun r => ((facultyAllStudents db fid).map (·.id)).contains r.student_id)

/-- Builds one faculty row for a student and subject from the student's
submissions for that subject: each status field is the raw record status or
`pending`. -/
def mkFacultyRow (types : List SubmissionType) (student : Student)
    (subs : List Submission) (subject : Subject) : FacultyRow :=
  let ss := subs.filter
    (fun r => r.student_id == student.id && r.subject_id == subject.id)
  { student := student
    subject_id := subject.id
    subject_name := subject.name
    subject_code := subject.subject_code
    subject_type := subject.type
    ta_status := statusOrPending (findSubmission ss (findType types "TA"))
    cie_status := statusOrPending (findSubmission ss (findType types "CIE"))
    defaulter_status :=
      statusOrPending (findSubmission ss (findType types "Defaulter work")) }

/-- `isApplicable`: same class, and the assignment is class-wide
(`batch_id === null`) or for the student's batch. -/
def assignmentApplies (a : FacultyAssignment) (s : Student) : Bool :=
  a.class_id == some s.class_id && (a.batch_id == none || a.batch_id == s.batch_id)

/-- The `studentsWithSubjects` rows produced from explicit `faculty_subjects`
assignments: for each student of the faculty's classes and each applicable
assignment whose subject join is non-null, one row. -/
def facultyAssignmentRows (db : DB) (fid : Nat) : List FacultyRow :=
  (facultyAllStudents db fid).flatMap (fun student =>
    (facultyAssignments db fid).flatMap (fun a =>
      match assignmentSubject db a with
      | some subj =>
        if assignmentApplies a student then
          [mkFacultyRow db.submissionTypes student (facultySubmissions db fid) subj]
        else []
      | none => []))

/-- `.or('mdm_faculty_id.eq.F,oe_faculty_id.eq.F,pe_faculty_id.eq.F')` — the
selection rows naming this faculty in some elective slot. -/
def facultyElectiveSelections (db : DB) (fid : Nat) : List Selection :=
  db.selections.filter (fun sel =>
    sel.mdm_faculty_id == some fid || sel.oe_faculty_id == some fid ||
      sel.pe_faculty_id == some fid)

/-- `.from('students').in('id', electiveStudentIds)`. -/
def facultyElectiveStudents (db : DB) (fid : Nat) : List Student :=
  db.students.filter (fun s =>
    ((facultyElectiveSelections db fid).map (·.student_id)).contains s.id)

/-- The elective subject ids where this faculty is the assigned grader of a
truthy slot. -/
def facultyElectiveSubjectIds (db : DB) (fid : Nat) : List Nat :=
  (facultyElectiveSelections db fid).flatMap (fun sel =>
    (if sel.mdm_faculty_id == some fid && truthyId sel.mdm_id then
      sel.mdm_id.toList else []) ++
      (if sel.oe_faculty_id == some fid && truthyId sel.oe_id then
        sel.oe_id.toList else []) ++
        (if sel.pe_faculty_id == some fid && truthyId sel.pe_id then
          sel.pe_id.toList else []))

/-- `.from('subjects').in('id', electiveSubjectIds)`. -/
def facultyElectiveSubjects (db : DB) (fid : Nat) : List Subject :=
  db.subjects.filter (fun s => (facultyElectiveSubjectIds db fid).contains s.id)

/-- `subjectMap.get(id)`: the map is filled by iterating the fetched subject
rows with `set`, so the last row with the id wins. -/
def facultySubjectMapGet (db : DB) (fid : Nat) (id : Nat) : Option Subject :=
  (facultyElectiveSubjects db fid).reverse.find? (fun s => s.id == id)

/-- `.from('student_submissions').in('student_id', electiveStudentIds)`. -/
def facultyElectiveSubmissions (db : DB) (fid : Nat) : List Submission :=
  db.submissions.filter
    (fun r => ((facultyElectiveSelections db fid).map (·.student_id)).contains
      r.student_id)

/-- One elective slot's contribution for an elective student: a row when the
faculty grades the slot, the slot is truthy, and the subject id resolves. -/
def facultySlotRows (db : DB) (fid : Nat) (student : Student)
    (slotFaculty : Option Nat) (slotId : Option Nat) : List FacultyRow :=
  if slotFaculty == some fid && truthyId slotId then
    match slotId.bind (fun i => facultySubjectMapGet db fid i) with
    | some subj =>
      [mkFacultyRow db.submissionTypes student
        (facultyElectiveSubmissions db fid) subj]
    | none => []
  else []

/-- The rows appended for elective students: `electiveSelections.find(s =>
s.student_id === student.id)` (first match), then one row per matching slot in
order MDM, OE, PE.  The source runs this block only when there is at least one
elective student; with no elective students it contributes no rows either
way. -/
def facultyElectiveRows (db : DB) (fid : Nat) : List FacultyRow :=
  (facultyElectiveStudents db fid).flatMap (fun student =>
    match (facultyElectiveSelections db fid).find?
        (fun sel => sel.student_id == student.id) with
    | none => []
    | some sel =>
      facultySlotRows db fid student sel.mdm_faculty_id sel.mdm_id ++
        facultySlotRows db fid student sel.oe_faculty_id sel.oe_id ++
          facultySlotRows db fid student sel.pe_faculty_id sel.pe_id)

/-- Per-row `(totalSubmissions, completedSubmissions)` of the faculty
`GET /students` percentage pass, computed from the row's status strings. -/
def rowTotals (r : FacultyRow) : Nat × Nat :=
  if r.subject_type == "practical" then
    (1, if r.ta_status == "completed" then 1 else 0)
  else
    let c := (if r.cie_status == "completed" then 1 else 0) +
      (if r.ta_status == "completed" then 1 else 0)
    if r.student.defaulter then
      (3, c + (if r.defaulter_status == "completed" then 1 else 0))
    else
      (2, c)

/-- One entry of the faculty `GET /students` response. -/
structure FacultyOut where
  row : FacultyRow
  submission_percentage : Nat
  total_submissions : Nat
  completed_submissions : Nat
deriving DecidableEq, Repr

/-- The faculty `GET /students` response: assignment rows then elective rows,
each given `submission_percentage`, `total_submissions` and
`completed_submissions`. -/
def facultyStudents (db : DB) (fid : Nat) : List FacultyOut :=
  (facultyAssignmentRows db fid ++ facultyElectiveRows db fid).map (fun r =>
    let tc := rowTotals r
    { row := r
      submission_percentage := if tc.1 > 0 then pctRound tc.2 tc.1 else 0
      total_submissions := tc.1
      completed_submissions := tc.2 })

/-- Outcome of `DELETE /student/:id`: HTTP status, the `success` flag, whether
a datastore delete was issued, and the resulting `students` table. -/
structure DeleteOutcome where
  status : Nat
  success : Bool
  deleteIssued : Bool
  students : List Student
deriving DecidableEq, Repr

/-- `DELETE /student/:id`: 400 when the caller's token carries no class id
(the `:id` route param is a non-empty string, so its truthiness check cannot
fail); the ownership fetch uses `.single()`, which errors unless exactly one
row matches, giving 404; a class mismatch gives 403 before any delete; only
the success path issues `.delete().eq('id', id)`. -/
def deleteStudentRoute (students : List Student) (paramId : Nat)
    (userClassId : Option Nat) : DeleteOutcome :=
  match userClassId with
  | none => { status := 400, success := false, deleteIssued := false,
              students := students }
  | some cid =>
    match students.filter (fun s => s.id == paramId) with
    | [st] =>
      if st.class_id != cid then
        { status := 403, success := false, deleteIssued := false,
          students := students }
      else
        { status := 200, success := true, deleteIssued := true,
          students := students.filter (fun s => s.id != paramId) }
    | _ => { status := 404, success := false, deleteIssued := false,
             students := students }

/-- One parsed spreadsheet row of `POST /import-students` (the handler has
already checked that the required columns exist). -/
structure ImportRow where
  roll_no : String
  name : String
  hall_ticket_number : String
  attendance_percent : Int
deriving DecidableEq, Repr

/-- The columns of an existing student the duplicate check reads. -/
structure ExistingStudent where
  roll_no : String
  hall_ticket_number : String
deriving DecidableEq, Repr

/-- A student record prepared for insertion by the import (the bcrypt password
hash is produced by an external collaborator and not modelled). -/
structure NewStudent where
  roll_no : String
  name : String
  hall_ticket_number : String
  attendance_percent : Int
  defaulter : Bool
  class_id : Nat
  batch_id : Option Nat
deriving DecidableEq, Repr

/-- Outcome of `POST /import-students`: status, `success`, the inserted rows,
and the count the success message reports (`none` when the message carries no
count). -/
structure ImportOutcome where
  status : Nat
  success : Bool
  inserted : List NewStudent
  reportedCount : Option Nat
deriving DecidableEq, Repr

/-- `String.prototype.trim`: strip leading and trailing whitespace (embedded
over the character list so that it evaluates by kernel reduction). -/
def trimStr (s : String) : String :=
  ⟨((s.data.dropWhile Char.isWhitespace).reverse.dropWhile
    Char.isWhitespace).reverse⟩

/-- A row is a duplicate when its trimmed roll number is in `existingRolls` or
its trimmed hall-ticket number is in `existingHallTickets` (both sets built
from the existing students of the caller's class, trimmed). -/
def isDuplicateRow (existing : List ExistingStudent) (r : ImportRow) : Bool :=
  existing.any (fun s => trimStr s.roll_no == trimStr r.roll_no) ||
    existing.any
      (fun s => trimStr s.hall_ticket_number == trimStr r.hall_ticket_number)

/-- The insert record built for a non-duplicate row: trimmed fields, defaulter
recomputed from attendance, no batch. -/
def mkNewStudent (cid : Nat) (r : ImportRow) : NewStudent :=
  { roll_no := trimStr r.roll_no
    name := trimStr r.name
    hall_ticket_number := trimStr r.hall_ticket_number
    attendance_percent := r.attendance_percent
    defaulter := r.attendance_percent < 75
    class_id := cid
    batch_id := none }

/-- `POST /import-students` after parsing: an empty sheet is a 400; rows whose
roll number or hall-ticket number matches an existing student of the class are
filtered out; with nothing left the handler answers
"No new students to import (all duplicates skipped)." without a count; else it
inserts the remaining rows and reports
"Import completed. N new students added." with `N = students.length`, the
number of inserted rows. -/
def importStudentsRoute (cid : Nat) (rows : List ImportRow)
    (existing : List ExistingStudent) : ImportOutcome :=
  if rows.isEmpty then
    { status := 400, success := false, inserted := [], reportedCount := none }
  else
    let newRows := rows.filter (fun r => !isDuplicateRow existing r)
    if newRows.isEmpty then
      { status := 200, success := true, inserted := [], reportedCount := none }
    else
      let students := newRows.map (mkNewStudent cid)
      { status := 200, success := true, inserted := students,
        reportedCount := some students.length }

/-- The required-items table of the specification: one item for a practical
subject regardless of the defaulter flag; otherwise two items, or three for a
defaulter. -/
def requiredItems (subjType : String) (isDefaulter : Bool) : Nat :=
  if subjType = "practical" then 1 else if isDefaulter then 3 else 2

/-! Concrete inputs used to exercise the handlers. -/

/-- The three named submission types. -/
def exTypes : List SubmissionType :=
  [⟨1, "TA"⟩, ⟨2, "CIE"⟩, ⟨3, "Defaulter work"⟩]

/-- A theory subject of class 1. -/
def exTheory : Subject := ⟨10, "Maths", "M101", "theory", some 1⟩

/-- A practical subject of class 1. -/
def exPractical : Subject := ⟨11, "Lab", "L101", "practical", some 1⟩

/-- An elective subject offered at department level (no class). -/
def exElective : Subject := ⟨12, "Robotics", "R201", "oe", none⟩

/-- A non-defaulter student of class 1. -/
def exAsha : Student := ⟨100, "1", "Asha", false, 1, none⟩

/-- A defaulter student of class 1. -/
def exBela : Student := ⟨101, "2", "Bela", true, 1, none⟩

/-- Class 1 with one theory subject: Asha has TA completed, Bela (defaulter)
has TA and CIE completed. -/
def exDB1 : DB :=
  { students := [exAsha, exBela]
    subjects := [exTheory]
    selections := []
    submissions := [⟨100, 10, 1, "completed"⟩, ⟨101, 10, 1, "completed"⟩,
      ⟨101, 10, 2, "completed"⟩]
    submissionTypes := exTypes
    facultySubjects := [] }

/-- Class 1 with one theory subject and a TA record whose status is the
free-form string `done`. -/
def exDB2 : DB :=
  { students := [exAsha]
    subjects := [exTheory]
    selections := []
    submissions := [⟨100, 10, 1, "done"⟩]
    submissionTypes := exTypes
    facultySubjects := [] }

/-- Class 1 with no subjects at all. -/
def exDB3 : DB :=
  { students := [exAsha]
    subjects := []
    selections := []
    submissions := []
    submissionTypes := exTypes
    facultySubjects := [] }

/-- A submission-types table with no `TA` row. -/
def exDB4 : DB :=
  { students := [exAsha]
    subjects := [exTheory]
    selections := []
    submissions := [⟨100, 10, 1, "completed"⟩]
    submissionTypes := [⟨2, "CIE"⟩, ⟨3, "Defaulter work"⟩]
    facultySubjects := [] }

/-- Faculty 5 is assigned the practical subject of class 1 class-wide; Asha
has no submissions for it. -/
def exDB5 : DB :=
  { students := [exAsha]
    subjects := [exPractical]
    selections := []
    submissions := []
    submissionTypes := exTypes
    facultySubjects := [⟨5, some 11, none, some 1⟩] }

/-- An empty submission-types table: all three named type lookups miss.
Bela (defaulter) is in class 1 with one theory subject taught class-wide by
faculty 5, and one submission record that can never match a type. -/
def exDB8 : DB :=
  { students := [exBela]
    subjects := [exTheory]
    selections := []
    submissions := [⟨101, 10, 1, "completed"⟩]
    submissionTypes := []
    facultySubjects := [⟨5, some 10, none, some 1⟩] }

/-- The single per-subject export entry of `exDB8`. -/
def exRow8 : SubjRow :=
  ⟨10, "Maths", "M101", "theory", "pending", "pending", "pending"⟩

/-- The single export student of `exDB8`. -/
def exStu8 : ExportStudent := ⟨"2", "Bela", true, [exRow8]⟩

/-- The single row the faculty `GET /students` view of `exDB8` produces. -/
def exFacultyOut8 : FacultyOut :=
  { row := mkFacultyRow [] exBela [⟨101, 10, 1, "completed"⟩] exTheory
    submission_percentage := 0
    total_submissions := 3
    completed_submissions := 0 }

/-- Asha selected the department elective as her OE slot; Bela selected
nothing. -/
def exDB6 : DB :=
  { students := [exAsha, exBela]
    subjects := [exTheory, exElective]
    selections := [⟨100, none, some 12, none, none, some 5, none⟩]
    submissions := []
    submissionTypes := exTypes
    facultySubjects := [] }

/-! Helper lemmas. -/

theorem pctRound_le_100 {c t : Nat} (hct : c ≤ t) (ht : 0 < t) :
    pctRound c t ≤ 100 := by
  unfold pctRound
  have h2t : 0 < 2 * t := by omega
  have hlt : 200 * c + t < 101 * (2 * t) := by omega
  have := (Nat.div_lt_iff_lt_mul h2t).mpr hlt
  omega

/-- The natural-number computation `(200 * c + t) / (2 * t)` is exactly the
half-up rounding of the rational `100 * c / t`. -/
theorem pctRound_eq_round {c t : Nat} (ht : 0 < t) :
    (pctRound c t : ℤ) = round ((100 * c : ℚ) / t) := by
  have ht' : (t : ℚ) ≠ 0 := Nat.cast_ne_zero.mpr (by omega)
  rw [round_eq]
  have heq : (100 * c : ℚ) / t + 1 / 2 =
      (((200 * c + t : ℕ) : ℤ) : ℚ) / ((2 * t : ℕ) : ℚ) := by
    push_cast
    field_simp
    ring
  rw [heq, Rat.floor_intCast_div_natCast]
  exact (Int.natCast_div _ _).symm ▸ rfl

theorem completedCount_le_one (subs : List Submission)
    (ty : Option SubmissionType) : completedCount subs ty ≤ 1 := by
  unfold completedCount
  cases findSubmission subs ty with
  | none => simp
  | some r => dsimp only; split <;> simp

/-- For every subject the class-teacher handler counts, the total is exactly
the spec's required-items table. -/
theorem subjectTotalCompleted_fst (types : List SubmissionType)
    (isDefaulter : Bool) (subjType : String) (subs : List Submission) :
    (subjectTotalCompleted types isDefaulter subjType subs).1 =
      requiredItems subjType isDefaulter := by
  unfold subjectTotalCompleted requiredItems
  by_cases h : subjType = "practical"
  · simp [h]
  · have hb : (subjType == "practical") = false := by
      simpa using h
    cases isDefaulter <;> simp [hb, h]

theorem subjectTotalCompleted_le (types : List SubmissionType)
    (isDefaulter : Bool) (subjType : String) (subs : List Submission) :
    (subjectTotalCompleted types isDefaulter subjType subs).2 ≤
      (subjectTotalCompleted types isDefaulter subjType subs).1 := by
  unfold subjectTotalCompleted
  have h1 := completedCount_le_one subs (findType types "TA")
  have h2 := completedCount_le_one subs (findType types "CIE")
  have h3 := completedCount_le_one subs (findType types "Defaulter work")
  cases h : (subjType == "practical") <;> cases hd : isDefaulter <;>
    simp [h, hd] <;> omega

/-- The faculty handler's per-row total is exactly the spec's required-items
table. -/
theorem rowTotals_fst (r : FacultyRow) :
    (rowTotals r).1 = requiredItems r.subject_type r.student.defaulter := by
  unfold rowTotals requiredItems
  by_cases h : r.subject_type = "practical"
  · simp [h]
  · have hb : (r.subject_type == "practical") = false := by simpa using h
    cases hr : r.student.defaulter <;> simp [hb, h]

theorem rowTotals_le (r : FacultyRow) : (rowTotals r).2 ≤ (rowTotals r).1 := by
  unfold rowTotals
  cases h : (r.subject_type == "practical") <;> cases hd : r.student.defaulter <;>
    simp [h, hd] <;> split_ifs <;> omega

theorem rowTotals_pos (r : FacultyRow) : 0 < (rowTotals r).1 := by
  unfold rowTotals
  cases h : (r.subject_type == "practical") <;> cases hd : r.student.defaulter <;>
    simp [h, hd]

/-- A fold accumulating a pair of component-wise sums preserves
`second ≤ first` when each step's increments satisfy it. -/
theorem foldl_pair_le {α : Type} (f g : α → Nat) (hfg : ∀ a, g a ≤ f a) :
    ∀ (l : List α) (acc : Nat × Nat), acc.2 ≤ acc.1 →
      (l.foldl (fun acc a => (acc.1 + f a, acc.2 + g a)) acc).2 ≤
        (l.foldl (fun acc a => (acc.1 + f a, acc.2 + g a)) acc).1
  | [], _, h => h
  | x :: xs, acc, h =>
    foldl_pair_le f g hfg xs _ (by have := hfg x; dsimp; omega)

theorem studentTotals_le (db : DB) (cid : Nat) (st : Student) :
    (studentTotals db cid st).2 ≤ (studentTotals db cid st).1 := by
  unfold studentTotals
  exact foldl_pair_le
    (fun subject => (subjectTotalCompleted db.submissionTypes st.defaulter
      subject.type (((classSubmissions db cid).filter
        (fun r => r.student_id == st.id)).filter
          (fun r => r.subject_id == subject.id))).1)
    (fun subject => (subjectTotalCompleted db.submissionTypes st.defaulter
      subject.type (((classSubmissions db cid).filter
        (fun r => r.student_id == st.id)).filter
          (fun r => r.subject_id == subject.id))).2)
    (fun subject => subjectTotalCompleted_le _ _ _ _)
    (studentSubjectsOf db cid st) (0, 0) (Nat.le_refl 0)

theorem studentPercentage_le_100 (db : DB) (cid : Nat) (st : Student) :
    studentPercentage db cid st ≤ 100 := by
  unfold studentPercentage
  split
  · omega
  · dsimp only
    split
    · exact pctRound_le_100 (studentTotals_le db cid st) (by omega)
    · omega

theorem findSubmission_mem {subs : List Submission} {ty : Option SubmissionType}
    {r : Submission} (h : findSubmission subs ty = some r) : r ∈ subs :=
  List.mem_of_find?_eq_some h

theorem findSubmission_matches {subs : List Submission}
    {ty : Option SubmissionType} {r : Submission}
    (h : findSubmission subs ty = some r) : matchesType ty r = true :=
  List.find?_some h

theorem findSubmission_none (subs : List Submission) :
    findSubmission subs none = none :=
  List.find?_eq_none.mpr (fun x _ => by simp [matchesType])

/-- Every status field the handlers emit through `statusOrPending` is either
the literal `pending` or the raw status of one of the looked-up records. -/
theorem statusOrPending_cases (subs : List Submission)
    (ty : Option SubmissionType) :
    statusOrPending (findSubmission subs ty) = "pending" ∨
      ∃ r ∈ subs, statusOrPending (findSubmission subs ty) = r.status := by
  cases h : findSubmission subs ty with
  | none => exact Or.inl rfl
  | some r =>
    cases he : (r.status == "") with
    | true => exact Or.inl (by simp [statusOrPending, he])
    | false => exact Or.inr ⟨r, findSubmission_mem h, by simp [statusOrPending, he]⟩

theorem findType_eq_none {types : List SubmissionType} {n : String}
    (h : ∀ t ∈ types, t.name ≠ n) : findType types n = none :=
  List.find?_eq_none.mpr (fun t ht => by simp [h t ht])

theorem mem_slotList {x : Nat} {o : Option Nat} :
    x ∈ (if truthyId o then o.toList else []) ↔ x ≠ 0 ∧ o = some x := by
  cases o with
  | none => simp [truthyId]
  | some v =>
    by_cases h : v = 0
    · subst h
      simp [truthyId]
      omega
    · simp [truthyId, h]
      omega

theorem mem_selectionElectives {x : Nat} {sel : Selection} :
    x ∈ selectionElectives sel ↔
      x ≠ 0 ∧ (sel.mdm_id = some x ∨ sel.oe_id = some x ∨ sel.pe_id = some x) := by
  unfold selectionElectives
  simp only [List.mem_append, mem_slotList]
  tauto

theorem mem_collectElectiveIds {x : Nat} {sels : List Selection} :
    x ∈ collectElectiveIds sels ↔ ∃ sel ∈ sels, x ∈ selectionElectives sel := by
  unfold collectElectiveIds
  simp [List.mem_flatMap]

theorem studentElectivesOf_mem {sels : List Selection} {sid x : Nat}
    (h : x ∈ studentElectivesOf sels sid) :
    ∃ sel ∈ sels, sel.student_id = sid ∧ x ∈ selectionElectives sel := by
  unfold studentElectivesOf at h
  cases hf : sels.reverse.find? (fun sel => sel.student_id == sid) with
  | none => rw [hf] at h; simp at h
  | some sel =>
    rw [hf] at h
    exact ⟨sel, List.mem_reverse.mp (List.mem_of_find?_eq_some hf),
      by simpa using (List.find?_some hf), h⟩

theorem studentElectivesOf_eq_of_uniq {sels : List Selection} {sid : Nat}
    {sel : Selection} (hmem : sel ∈ sels) (hsid : sel.student_id = sid)
    (huniq : ∀ s1 ∈ sels, ∀ s2 ∈ sels,
      s1.student_id = sid → s2.student_id = sid → s1 = s2) :
    studentElectivesOf sels sid = selectionElectives sel := by
  unfold studentElectivesOf
  cases hf : sels.reverse.find? (fun sel => sel.student_id == sid) with
  | none =>
    exfalso
    have := List.find?_eq_none.mp hf sel (List.mem_reverse.mpr hmem)
    simp [hsid] at this
  | some sel' =>
    have hmem' : sel' ∈ sels := List.mem_reverse.mp (List.mem_of_find?_eq_some hf)
    have hp : sel'.student_id = sid := by simpa using (List.find?_some hf)
    rw [huniq sel' hmem' sel hmem hp hsid]

/-! Claim theorems. -/

/-- C1: for every (student, subject) pair either aggregator processes, the
number of required submission items is `requiredItems`, a function of the
subject type and the student's defaulter flag alone — 1 for practical, 2 for
any other subject, 3 for any other subject when the student is a defaulter —
and changing which submission records exist never changes it. -/
theorem required_item_count_table (types : List SubmissionType)
    (isDefaulter : Bool) (subjType : String) (subs subs' : List Submission)
    (db : DB) (fid : Nat) :
    (subjectTotalCompleted types isDefaulter subjType subs).1 =
        requiredItems subjType isDefaulter ∧
      (subjectTotalCompleted types isDefaulter subjType subs).1 =
        (subjectTotalCompleted types isDefaulter subjType subs').1 ∧
      ∀ out ∈ facultyStudents db fid,
        out.total_submissions =
          requiredItems out.row.subject_type out.row.student.defaulter := by
  refine ⟨subjectTotalCompleted_fst _ _ _ _, ?_, ?_⟩
  · rw [subjectTotalCompleted_fst, subjectTotalCompleted_fst]
  · intro out hout
    rcases List.mem_map.mp hout with ⟨r, _, rfl⟩
    exact rowTotals_fst r

/-- The single row the faculty `GET /students` view of `exDB5` produces. -/
def exFacultyOut : FacultyOut :=
  { row := mkFacultyRow exTypes exAsha [] exPractical
    submission_percentage := 0
    total_submissions := 1
    completed_submissions := 0 }

/-- C1 witness at concrete inputs. -/
theorem required_item_count_table_witness :
    (subjectTotalCompleted exTypes true "theory" []).1 =
        requiredItems "theory" true ∧
      exFacultyOut.total_submissions =
        requiredItems exFacultyOut.row.subject_type
          exFacultyOut.row.student.defaulter :=
  ⟨(required_item_count_table exTypes true "theory" [] [] exDB5 5).1,
    (required_item_count_table exTypes true "theory" [] [] exDB5 5).2.2
      exFacultyOut (by decide)⟩

/-- C2: both views compute `submission_percentage` as the half-up rounding of
`100 * completed / total` with the totals of the required-items table; on
`exDB1`, Asha (non-defaulter, theory, TA completed) gets 50 and Bela
(defaulter, theory, TA and CIE completed) gets 67. -/
theorem percentage_equals_half_up_round :
    (∀ (db : DB) (cid : Nat) (st : Student), 0 < (studentTotals db cid st).1 →
        (studentPercentage db cid st : ℤ) =
          round ((100 * (studentTotals db cid st).2 : ℚ) /
            (studentTotals db cid st).1)) ∧
      (∀ (db : DB) (fid : Nat), ∀ out ∈ facultyStudents db fid,
        (out.submission_percentage : ℤ) =
          round ((100 * out.completed_submissions : ℚ) /
            out.total_submissions)) ∧
      (classTeacherStudents exDB1 1).map (·.submission_percentage) = [50, 67] := by
  refine ⟨?_, ?_, by decide⟩
  · intro db cid st ht
    unfold studentPercentage
    by_cases he : (studentSubjectsOf db cid st).isEmpty
    · exfalso
      have hz : studentTotals db cid st = (0, 0) := by
        unfold studentTotals
        rw [List.isEmpty_iff.mp he]
        rfl
      rw [hz] at ht
      exact absurd ht (by omega)
    · rw [if_neg he]
      dsimp only
      rw [if_pos ht]
      exact pctRound_eq_round ht
  · intro db fid out hout
    rcases List.mem_map.mp hout with ⟨r, _, rfl⟩
    have hpos := rowTotals_pos r
    show ((if (rowTotals r).1 > 0 then pctRound (rowTotals r).2 (rowTotals r).1
      else 0 : ℕ) : ℤ) = round ((100 * (rowTotals r).2 : ℚ) / (rowTotals r).1)
    rw [if_pos hpos]
    exact pctRound_eq_round hpos

/-- C2 witness at concrete inputs. -/
theorem percentage_equals_half_up_round_witness :
    ((studentPercentage exDB1 1 exBela : ℤ) =
        round ((100 * (studentTotals exDB1 1 exBela).2 : ℚ) /
          (studentTotals exDB1 1 exBela).1)) ∧
      (exFacultyOut.submission_percentage : ℤ) =
        round ((100 * exFacultyOut.completed_submissions : ℚ) /
          exFacultyOut.total_submissions) :=
  ⟨percentage_equals_half_up_round.1 exDB1 1 exBela (by decide),
    percentage_equals_half_up_round.2.1 exDB5 5 exFacultyOut (by decide)⟩

/-- C4: a student with no applicable subjects gets `submission_percentage`
0 from the class-teacher roster view — the computation is total and never
divides by the zero total. -/
theorem empty_subjects_zero_percentage (db : DB) (cid : Nat) :
    ∀ out ∈ classTeacherStudents db cid,
      studentSubjectsOf db cid out.student = [] →
        out.submission_percentage = 0 := by
  intro out hout h
  rcases List.mem_map.mp hout with ⟨s, _, rfl⟩
  dsimp only at h ⊢
  unfold studentPercentage
  rw [if_pos (by rw [h]; rfl)]

/-- C4 witness at concrete inputs. -/
theorem empty_subjects_zero_percentage_witness :
    (⟨exAsha, 0⟩ : StudentOut).submission_percentage = 0 :=
  empty_subjects_zero_percentage exDB3 1 ⟨exAsha, 0⟩ (by decide) (by decide)

/-- C8: deleting a student that exists but belongs to another class answers
403 with `success := false`, issues no datastore delete, and leaves the
students table unchanged. -/
theorem delete_foreign_student_forbidden (students : List Student)
    (paramId cid : Nat) (st : Student)
    (hfind : students.filter (fun s => s.id == paramId) = [st])
    (hclass : st.class_id ≠ cid) :
    deleteStudentRoute students paramId (some cid) =
      { status := 403, success := false, deleteIssued := false,
        students := students } := by
  unfold deleteStudentRoute
  rw [hfind]
  have hb : (st.class_id != cid) = true := by simpa using hclass
  simp [hb]

/-- C8 witness at concrete inputs. -/
theorem delete_foreign_student_forbidden_witness :
    deleteStudentRoute [exAsha] 100 (some 2) =
      { status := 403, success := false, deleteIssued := false,
        students := [exAsha] } :=
  delete_foreign_student_forbidden [exAsha] 100 2 exAsha (by decide) (by decide)

/-- Upload of three rows: one duplicates an existing roll number, two are
new. -/
def exImportRows : List ImportRow :=
  [⟨"1", "Dup", "H1", 80⟩, ⟨"3", "New1", "H3", 80⟩, ⟨"4", "New2", "H4", 60⟩]

/-- Existing roster of the class: one student with roll `1`. -/
def exExisting : List ExistingStudent := [⟨"1", "H1"⟩]

/-- C9 counterexample: with three uploaded rows of which one is a duplicate,
the successful response reports 2 — the number of rows inserted — while the
number of rows skipped as duplicates is 1, so the response does not report
the skip count. -/
theorem import_report_counterexample :
    (importStudentsRoute 7 exImportRows exExisting).reportedCount = some 2 ∧
      (exImportRows.filter (fun r => isDuplicateRow exExisting r)).length = 1 ∧
      (some 2 : Option Nat) ≠ some 1 := by decide

/-- C9 (amended): duplicate rows (by trimmed roll number or hall-ticket
number against existing students of the class) are silently skipped and the
non-duplicate rows are exactly what is inserted, but the success message
reports the number of rows inserted, not the number skipped (and carries no
count at all when every row is a duplicate). -/
theorem import_dedupe_behaviour (cid : Nat) (rows : List ImportRow)
    (existing : List ExistingStudent) :
    (importStudentsRoute cid rows existing).inserted =
        (rows.filter (fun r => !isDuplicateRow existing r)).map
          (mkNewStudent cid) ∧
      (rows ≠ [] → (importStudentsRoute cid rows existing).status = 200 ∧
        (importStudentsRoute cid rows existing).success = true) ∧
      (rows.filter (fun r => !isDuplicateRow existing r) ≠ [] →
        (importStudentsRoute cid rows existing).reportedCount =
          some (rows.filter (fun r => !isDuplicateRow existing r)).length) := by
  unfold importStudentsRoute
  by_cases h : rows.isEmpty
  · have hr : rows = [] := List.isEmpty_iff.mp h
    subst hr
    simp
  · rw [if_neg h]
    have hrne : rows ≠ [] := by simpa [List.isEmpty_iff] using h
    by_cases h2 : (rows.filter (fun r => !isDuplicateRow existing r)).isEmpty
    · have h2' : rows.filter (fun r => !isDuplicateRow existing r) = [] :=
        List.isEmpty_iff.mp h2
      rw [if_pos h2]
      simp [h2']
    · rw [if_neg h2]
      simp

/-- C9 witness at concrete inputs. -/
theorem import_dedupe_behaviour_witness :
    (importStudentsRoute 7 exImportRows exExisting).inserted =
        (exImportRows.filter (fun r => !isDuplicateRow exExisting r)).map
          (mkNewStudent 7) ∧
      (importStudentsRoute 7 exImportRows exExisting).status = 200 ∧
      (importStudentsRoute 7 exImportRows exExisting).reportedCount =
        some (exImportRows.filter
          (fun r => !isDuplicateRow exExisting r)).length :=
  ⟨(import_dedupe_behaviour 7 exImportRows exExisting).1,
    ((import_dedupe_behaviour 7 exImportRows exExisting).2.1 (by decide)).1,
    (import_dedupe_behaviour 7 exImportRows exExisting).2.2 (by decide)⟩

/-- C10: every percentage either view produces is a natural number (hence an
integer ≥ 0) at most 100, because each subject contributes at most as many
completed items as required items. -/
theorem percentage_bounded (db : DB) (cid fid : Nat) :
    (∀ out ∈ classTeacherStudents db cid, out.submission_percentage ≤ 100) ∧
      ∀ out ∈ facultyStudents db fid, out.submission_percentage ≤ 100 := by
  constructor
  · intro out hout
    rcases List.mem_map.mp hout with ⟨s, _, rfl⟩
    exact studentPercentage_le_100 db cid s
  · intro out hout
    rcases List.mem_map.mp hout with ⟨r, _, rfl⟩
    show (if (rowTotals r).1 > 0 then pctRound (rowTotals r).2 (rowTotals r).1
      else 0) ≤ 100
    split
    next h => exact pctRound_le_100 (rowTotals_le r) h
    next => omega

/-- C10 witness at concrete inputs. -/
theorem percentage_bounded_witness :
    (⟨exAsha, 0⟩ : StudentOut).submission_percentage ≤ 100 ∧
      exFacultyOut.submission_percentage ≤ 100 :=
  ⟨(percentage_bounded exDB5 1 5).1 ⟨exAsha, 0⟩ (by decide),
    (percentage_bounded exDB5 1 5).2 exFacultyOut (by decide)⟩

/-- C3 counterexample: in `exDB2` the TA record has the free-form status
`done`; the class-data export reports the item as `done`, not `pending`,
although the item is not counted as completed — refuting the claim's "any
other status string ... count the item as incomplete (reported as pending)". -/
theorem completion_status_counterexample :
    (classDataStudents exDB2 1).map (fun stu => stu.submissions.map (·.ta)) =
        [["done"]] ∧ ("done" : String) ≠ "pending" := by decide

/-- C3 (amended): an item counts as completed iff a submission record for its
(student, subject, submission-type-id) key exists with status exactly
`completed`, provided at most one record matches the key (the code reads the
first match); the absence of any matching record is reported as `pending`;
but a present non-completed record is reported with its own raw status, not
as `pending` (only an empty status string falls back to `pending`). -/
theorem completion_status_criterion (subs : List Submission)
    (ty : Option SubmissionType)
    (huniq : ∀ r1 ∈ subs, ∀ r2 ∈ subs,
      matchesType ty r1 = true → matchesType ty r2 = true → r1 = r2) :
    (completedCount subs ty = 1 ↔
        ∃ r ∈ subs, matchesType ty r = true ∧ r.status = "completed") ∧
      ((∀ r ∈ subs, matchesType ty r = false) →
        statusOrPending (findSubmission subs ty) = "pending") ∧
      (∀ r, findSubmission subs ty = some r → r.status ≠ "completed" →
        completedCount subs ty = 0) ∧
      (∀ r, findSubmission subs ty = some r → r.status ≠ "" →
        statusOrPending (findSubmission subs ty) = r.status) := by
  refine ⟨⟨?_, ?_⟩, ?_, ?_, ?_⟩
  · intro h1
    unfold completedCount at h1
    cases hf : findSubmission subs ty with
    | none => rw [hf] at h1; simp at h1
    | some r =>
      rw [hf] at h1
      cases hs : (r.status == "completed") with
      | true =>
        exact ⟨r, findSubmission_mem hf, findSubmission_matches hf,
          by simpa using hs⟩
      | false => simp [hs] at h1
  · rintro ⟨r, hr, hm, hs⟩
    have hsome : (subs.find? (matchesType ty)).isSome :=
      List.find?_isSome.mpr ⟨r, hr, hm⟩
    obtain ⟨r', hr'⟩ := Option.isSome_iff_exists.mp hsome
    have hrr : r' = r :=
      huniq r' (findSubmission_mem hr') r hr (findSubmission_matches hr') hm
    unfold completedCount
    rw [show findSubmission subs ty = some r' from hr', hrr]
    simp [hs]
  · intro h
    have hn : findSubmission subs ty = none :=
      List.find?_eq_none.mpr (fun x hx => by simp [h x hx])
    rw [hn]
    rfl
  · intro r hf hs
    unfold completedCount
    rw [hf]
    simp [hs]
  · intro r hf hs
    rw [hf]
    simp [statusOrPending, hs]

/-- C3 witness at concrete inputs. -/
theorem completion_status_criterion_witness :
    completedCount [⟨100, 10, 1, "completed"⟩] (some ⟨1, "TA"⟩) = 1 :=
  (completion_status_criterion [⟨100, 10, 1, "completed"⟩] (some ⟨1, "TA"⟩)
      (by decide)).1.mpr
    ⟨⟨100, 10, 1, "completed"⟩, by decide, by decide, rfl⟩

/-- Every row of the faculty view is `mkFacultyRow` applied to some student,
some subject, and a submission list drawn from the datastore. -/
theorem facultyRow_origin {db : DB} {fid : Nat} {r : FacultyRow}
    (hr : r ∈ facultyAssignmentRows db fid ++ facultyElectiveRows db fid) :
    ∃ (student : Student) (subs : List Submission) (subject : Subject),
      (∀ x ∈ subs, x ∈ db.submissions) ∧
        r = mkFacultyRow db.submissionTypes student subs subject := by
  rcases List.mem_append.mp hr with h | h
  · unfold facultyAssignmentRows at h
    rcases List.mem_flatMap.mp h with ⟨student, _, h2⟩
    rcases List.mem_flatMap.mp h2 with ⟨a, _, h3⟩
    cases hs : assignmentSubject db a with
    | none => rw [hs] at h3; simp at h3
    | some subj =>
      rw [hs] at h3
      cases hap : assignmentApplies a student with
      | false => rw [hap] at h3; simp at h3
      | true =>
        rw [hap] at h3
        simp at h3
        exact ⟨student, facultySubmissions db fid, subj,
          fun x hx => List.mem_of_mem_filter hx, h3⟩
  · unfold facultyElectiveRows at h
    rcases List.mem_flatMap.mp h with ⟨student, _, h2⟩
    cases hf : (facultyElectiveSelections db fid).find?
        (fun sel => sel.student_id == student.id) with
    | none => rw [hf] at h2; simp at h2
    | some sel =>
      rw [hf] at h2
      have hslot : ∀ sf si, r ∈ facultySlotRows db fid student sf si →
          ∃ subject, r = mkFacultyRow db.submissionTypes student
            (facultyElectiveSubmissions db fid) subject := by
        intro sf si hmem
        unfold facultySlotRows at hmem
        cases hc : (sf == some fid && truthyId si) with
        | false => rw [hc] at hmem; simp at hmem
        | true =>
          rw [hc] at hmem
          simp only [if_true] at hmem
          cases hsub : si.bind (fun i => facultySubjectMapGet db fid i) with
          | none => rw [hsub] at hmem; simp at hmem
          | some subj =>
            rw [hsub] at hmem
            simp at hmem
            exact ⟨subj, hmem⟩
      rcases List.mem_append.mp h2 with h3 | h3
      · rcases List.mem_append.mp h3 with h4 | h4
        · obtain ⟨subj, hr'⟩ := hslot _ _ h4
          exact ⟨student, facultyElectiveSubmissions db fid, subj,
            fun x hx => List.mem_of_mem_filter hx, hr'⟩
        · obtain ⟨subj, hr'⟩ := hslot _ _ h4
          exact ⟨student, facultyElectiveSubmissions db fid, subj,
            fun x hx => List.mem_of_mem_filter hx, hr'⟩
      · obtain ⟨subj, hr'⟩ := hslot _ _ h3
        exact ⟨student, facultyElectiveSubmissions db fid, subj,
          fun x hx => List.mem_of_mem_filter hx, hr'⟩

/-- C5: when the submission-types table has no row named `n` — for any `n`,
covering each of the three named types `TA`, `CIE` and `Defaulter work` —
the type lookup yields none, every item of that type counts 0 toward
completion everywhere (the record lookup never matches), every status field
of the missing type that the class-data export reports for a required item is
`pending`, and so is the corresponding field of every faculty-view row; the
aggregation is a total function, so it completes without any exception. -/
theorem missing_type_silent_degradation (db : DB) (cid fid : Nat) (n : String)
    (h : ∀ t ∈ db.submissionTypes, t.name ≠ n) :
    (∀ subs, completedCount subs (findType db.submissionTypes n) = 0) ∧
      (∀ stu ∈ classDataStudents db cid, ∀ row ∈ stu.submissions,
        (n = "TA" → row.ta = "pending") ∧
          (n = "CIE" → row.subject_type ≠ "practical" → row.cie = "pending") ∧
          (n = "Defaulter work" → stu.defaulter = true →
            row.subject_type ≠ "practical" → row.defaulterWork = "pending")) ∧
      ∀ out ∈ facultyStudents db fid,
        (n = "TA" → out.row.ta_status = "pending") ∧
          (n = "CIE" → out.row.cie_status = "pending") ∧
          (n = "Defaulter work" → out.row.defaulter_status = "pending") := by
  have hty : findType db.submissionTypes n = none := findType_eq_none h
  refine ⟨?_, ?_, ?_⟩
  · intro subs
    unfold completedCount
    rw [hty, findSubmission_none]
  · intro stu hstu row hrow
    unfold classDataStudents at hstu
    rcases List.mem_map.mp hstu with ⟨student, _, rfl⟩
    dsimp only at hrow ⊢
    rcases List.mem_map.mp hrow with ⟨subject, _, rfl⟩
    unfold exportSubjectRow
    dsimp only
    refine ⟨?_, ?_, ?_⟩
    · intro he
      subst he
      rw [hty, findSubmission_none]
      rfl
    · intro he hnp
      subst he
      rw [if_neg (by simpa using hnp), hty, findSubmission_none]
      rfl
    · intro he hd hnp
      subst he
      rw [if_pos (by simp [hd, hnp]), hty, findSubmission_none]
      rfl
  · intro out hout
    unfold facultyStudents at hout
    rcases List.mem_map.mp hout with ⟨r, hr, rfl⟩
    obtain ⟨student, subs, subject, _, rfl⟩ := facultyRow_origin hr
    unfold mkFacultyRow
    dsimp only
    refine ⟨?_, ?_, ?_⟩ <;> intro he <;> subst he <;>
      rw [hty, findSubmission_none] <;> rfl

/-- C5 witness at concrete inputs: `exDB8` has no submission-type rows at
all, so the theorem applies at each of the three names in turn. -/
theorem missing_type_silent_degradation_witness :
    completedCount [⟨101, 10, 1, "completed"⟩]
        (findType exDB8.submissionTypes "TA") = 0 ∧
      exRow8.ta = "pending" ∧ exRow8.cie = "pending" ∧
      exRow8.defaulterWork = "pending" ∧
      exFacultyOut8.row.cie_status = "pending" :=
  ⟨(missing_type_silent_degradation exDB8 1 5 "TA" (by decide)).1
      [⟨101, 10, 1, "completed"⟩],
    ((missing_type_silent_degradation exDB8 1 5 "TA" (by decide)).2.1
      exStu8 (by decide) exRow8 (by decide)).1 rfl,
    ((missing_type_silent_degradation exDB8 1 5 "CIE" (by decide)).2.1
      exStu8 (by decide) exRow8 (by decide)).2.1 rfl (by decide),
    ((missing_type_silent_degradation exDB8 1 5 "Defaulter work"
      (by decide)).2.1 exStu8 (by decide) exRow8 (by decide)).2.2 rfl
      (by decide) (by decide),
    ((missing_type_silent_degradation exDB8 1 5 "CIE" (by decide)).2.2
      exFacultyOut8 (by decide)).2.1 rfl⟩

theorem mkFacultyRow_statuses (types : List SubmissionType) (student : Student)
    (subs : List Submission) (subject : Subject) (base : List Submission)
    (hsub : ∀ r ∈ subs, r ∈ base) :
    ((mkFacultyRow types student subs subject).ta_status = "pending" ∨
        ∃ r ∈ base, (mkFacultyRow types student subs subject).ta_status =
          r.status) ∧
      ((mkFacultyRow types student subs subject).cie_status = "pending" ∨
        ∃ r ∈ base, (mkFacultyRow types student subs subject).cie_status =
          r.status) ∧
      ((mkFacultyRow types student subs subject).defaulter_status = "pending" ∨
        ∃ r ∈ base, (mkFacultyRow types student subs subject).defaulter_status =
          r.status) := by
  unfold mkFacultyRow
  dsimp only
  refine ⟨?_, ?_, ?_⟩
  · rcases statusOrPending_cases (subs.filter
        (fun r => r.student_id == student.id && r.subject_id == subject.id))
        (findType types "TA") with hp | ⟨r, hr, hp⟩
    · exact Or.inl hp
    · exact Or.inr ⟨r, hsub r (List.mem_of_mem_filter hr), hp⟩
  · rcases statusOrPending_cases (subs.filter
        (fun r => r.student_id == student.id && r.subject_id == subject.id))
        (findType types "CIE") with hp | ⟨r, hr, hp⟩
    · exact Or.inl hp
    · exact Or.inr ⟨r, hsub r (List.mem_of_mem_filter hr), hp⟩
  · rcases statusOrPending_cases (subs.filter
        (fun r => r.student_id == student.id && r.subject_id == subject.id))
        (findType types "Defaulter work") with hp | ⟨r, hr, hp⟩
    · exact Or.inl hp
    · exact Or.inr ⟨r, hsub r (List.mem_of_mem_filter hr), hp⟩

/-- C6 counterexample: the faculty view of `exDB5` produces a practical
subject row whose `cie_status` is `pending`, not the fixed string `N/A` the
claim requires for every practical subject. -/
theorem status_strings_counterexample :
    (facultyStudents exDB5 5).map
        (fun o => (o.row.subject_type, o.row.cie_status)) =
      [("practical", "pending")] ∧ ("pending" : String) ≠ "N/A" := by decide

/-- C6 (amended): in the class-data export, `cie` is the fixed `N/A` for every
practical subject, the defaulter item is the fixed `-` whenever the subject is
practical or the student is not a defaulter, and every other status field is
`pending` or the raw stored status of a submission record; in the faculty view
every status field is `pending` or a raw stored status — the fixed strings
`N/A` and `-` never appear there, and a free-form stored status is echoed
verbatim in both views. -/
theorem status_strings_characterization (db : DB) (cid fid : Nat) :
    (∀ stu ∈ classDataStudents db cid, ∀ row ∈ stu.submissions,
      (row.subject_type = "practical" → row.cie = "N/A") ∧
        ((row.subject_type = "practical" ∨ stu.defaulter = false) →
          row.defaulterWork = "-") ∧
        (row.ta = "pending" ∨ ∃ r ∈ db.submissions, row.ta = r.status) ∧
        (row.cie = "pending" ∨ row.cie = "N/A" ∨
          ∃ r ∈ db.submissions, row.cie = r.status) ∧
        (row.defaulterWork = "pending" ∨ row.defaulterWork = "-" ∨
          ∃ r ∈ db.submissions, row.defaulterWork = r.status)) ∧
      ∀ out ∈ facultyStudents db fid,
        (out.row.ta_status = "pending" ∨
          ∃ r ∈ db.submissions, out.row.ta_status = r.status) ∧
        (out.row.cie_status = "pending" ∨
          ∃ r ∈ db.submissions, out.row.cie_status = r.status) ∧
        (out.row.defaulter_status = "pending" ∨
          ∃ r ∈ db.submissions, out.row.defaulter_status = r.status) := by
  constructor
  · intro stu hstu row hrow
    unfold classDataStudents at hstu
    rcases List.mem_map.mp hstu with ⟨student, _, rfl⟩
    dsimp only at hrow ⊢
    rcases List.mem_map.mp hrow with ⟨subject, _, rfl⟩
    unfold exportSubjectRow
    dsimp only
    have hsubset : ∀ x ∈ ((classSubmissions db cid).filter
        (fun r => r.student_id == student.id && r.subject_id == subject.id)),
        x ∈ db.submissions :=
      fun x hx => List.mem_of_mem_filter (List.mem_of_mem_filter hx)
    refine ⟨?_, ?_, ?_, ?_, ?_⟩
    · intro hp
      simp [hp]
    · intro hcond
      have : (student.defaulter && subject.type != "practical") = false := by
        rcases hcond with hp | hd
        · simp [hp]
        · simp [hd]
      rw [this]
      simp
    · rcases statusOrPending_cases ((classSubmissions db cid).filter
          (fun r => r.student_id == student.id && r.subject_id == subject.id))
          (findType db.submissionTypes "TA") with hp | ⟨r, hr, hp⟩
      · exact Or.inl hp
      · exact Or.inr ⟨r, hsubset r hr, hp⟩
    · by_cases hpr : (subject.type == "practical") = true
      · exact Or.inr (Or.inl (by rw [if_pos hpr]))
      · rw [if_neg hpr]
        rcases statusOrPending_cases ((classSubmissions db cid).filter
            (fun r => r.student_id == student.id && r.subject_id == subject.id))
            (findType db.submissionTypes "CIE") with hp | ⟨r, hr, hp⟩
        · exact Or.inl hp
        · exact Or.inr (Or.inr ⟨r, hsubset r hr, hp⟩)
    · by_cases hdc : (student.defaulter && subject.type != "practical") = true
      · rw [if_pos hdc]
        rcases statusOrPending_cases ((classSubmissions db cid).filter
            (fun r => r.student_id == student.id && r.subject_id == subject.id))
            (findType db.submissionTypes "Defaulter work") with hp | ⟨r, hr, hp⟩
        · exact Or.inl hp
        · exact Or.inr (Or.inr ⟨r, hsubset r hr, hp⟩)
      · exact Or.inr (Or.inl (by rw [if_neg hdc]))
  · intro out hout
    unfold facultyStudents at hout
    rcases List.mem_map.mp hout with ⟨r, hr, rfl⟩
    obtain ⟨student, subs, subject, hsub, rfl⟩ := facultyRow_origin hr
    exact mkFacultyRow_statuses db.submissionTypes student subs subject
      db.submissions hsub

/-- The single per-subject export entry of `exDB5`. -/
def exLabRow : SubjRow := ⟨11, "Lab", "L101", "practical", "N/A", "pending", "-"⟩

/-- The single export student of `exDB5`. -/
def exLabStudent : ExportStudent := ⟨"1", "Asha", false, [exLabRow]⟩

/-- C6 witness at concrete inputs. -/
theorem status_strings_characterization_witness :
    exLabRow.cie = "N/A" ∧
      (exFacultyOut.row.cie_status = "pending" ∨
        ∃ r ∈ exDB5.submissions, exFacultyOut.row.cie_status = r.status) :=
  ⟨((status_strings_characterization exDB5 1 5).1 exLabStudent (by decide)
      exLabRow (by decide)).1 (by decide),
    (((status_strings_characterization exDB5 1 5).2 exFacultyOut
      (by decide)).2).1⟩

/-- C7: for a student of the class and a subject that is not one of the
class's own subjects, the subject is in the student's applicable set iff the
student's elective-selection row references it in one of the three slots
(MDM / OE / PE); selections of other students never make it applicable to
this student.  Hypotheses: datastore ids are non-zero (serial keys), and the
student has at most one selection row (the table is keyed by student). -/
theorem elective_applicability (db : DB) (cid : Nat) (st : Student)
    (subj : Subject) (hst : st ∈ classStudents db cid)
    (hsubj : subj ∈ db.subjects) (hnotclass : subj.class_id ≠ some cid)
    (hid : subj.id ≠ 0)
    (huniq : ∀ s1 ∈ db.selections, ∀ s2 ∈ db.selections,
      s1.student_id = st.id → s2.student_id = st.id → s1 = s2) :
    subj ∈ studentSubjectsOf db cid st ↔
      ∃ sel ∈ db.selections, sel.student_id = st.id ∧
        (sel.mdm_id = some subj.id ∨ sel.oe_id = some subj.id ∨
          sel.pe_id = some subj.id) := by
  have hnotcs : subj ∉ classSubjects db cid := by
    intro hmem
    have h2 := (List.mem_filter.mp hmem).2
    simp at h2
    exact hnotclass h2
  constructor
  · intro hmem
    unfold studentSubjectsOf at hmem
    rcases List.mem_append.mp hmem with h | h
    · exact absurd h hnotcs
    · have h2 := List.mem_filter.mp h
      have hcontains : subj.id ∈
          studentElectivesOf (classSelections db cid) st.id := by
        simpa using h2.2
      obtain ⟨sel, hsel, hsid, hx⟩ := studentElectivesOf_mem hcontains
      obtain ⟨_, hslots⟩ := mem_selectionElectives.mp hx
      exact ⟨sel, List.mem_of_mem_filter hsel, hsid, hslots⟩
  · rintro ⟨sel, hseldb, hsid, hslots⟩
    have hselc : sel ∈ classSelections db cid := by
      refine List.mem_filter.mpr ⟨hseldb, ?_⟩
      have hmm : sel.student_id ∈ (classStudents db cid).map (·.id) := by
        rw [hsid]
        exact List.mem_map.mpr ⟨st, hst, rfl⟩
      simpa using hmm
    have huniq' : ∀ s1 ∈ classSelections db cid, ∀ s2 ∈ classSelections db cid,
        s1.student_id = st.id → s2.student_id = st.id → s1 = s2 :=
      fun s1 h1 s2 h2 =>
        huniq s1 (List.mem_of_mem_filter h1) s2 (List.mem_of_mem_filter h2)
    have helec : studentElectivesOf (classSelections db cid) st.id =
        selectionElectives sel :=
      studentElectivesOf_eq_of_uniq hselc hsid huniq'
    have hxmem : subj.id ∈ selectionElectives sel :=
      mem_selectionElectives.mpr ⟨hid, hslots⟩
    have hidcollect : subj.id ∈ collectElectiveIds (classSelections db cid) :=
      mem_collectElectiveIds.mpr ⟨sel, hselc, hxmem⟩
    have hesub : subj ∈ electiveSubjects db cid := by
      unfold electiveSubjects
      dsimp only
      have hne : ¬ (collectElectiveIds (classSelections db cid)).isEmpty = true := by
        intro hemp
        rw [List.isEmpty_iff.mp hemp] at hidcollect
        simp at hidcollect
      rw [if_neg hne]
      exact List.mem_filter.mpr ⟨hsubj, by simpa using hidcollect⟩
    unfold studentSubjectsOf
    refine List.mem_append.mpr (Or.inr (List.mem_filter.mpr ⟨hesub, ?_⟩))
    have : subj.id ∈ studentElectivesOf (classSelections db cid) st.id := by
      rw [helec]
      exact hxmem
    simpa using this

/-- C7 witness at concrete inputs. -/
theorem elective_applicability_witness :
    exElective ∈ studentSubjectsOf exDB6 1 exAsha :=
  (elective_applicability exDB6 1 exAsha exElective (by decide) (by decide)
      (by decide) (by decide) (by decide)).mpr
    ⟨⟨100, none, some 12, none, none, some 5, none⟩, by decide, rfl,
      Or.inr (Or.inl rfl)⟩

end Rivoo
